import Mathlib

/-!
Verification of the Sensirion SHT4xI analog conversion routines
(`src/main.c`) against their natural-language specification.

The C program's `double` arithmetic is embedded as exact rational
arithmetic (`ℚ`).  Arrays of doubles indexed by the input/output index
enumerations are embedded as total functions `Nat → ℚ`, with
`Function.update` playing the role of an array store.  The external
uncertainty substrate's `UxHwDoubleUniformDist` primitive and the common
utilities' statistics aggregator are not part of the repository's source
tree; they are modelled from the specification, as marked in their doc
comments.
-/

namespace SHT4xI

/-! ### Index enumerations (from the constants header) -/

def kInputDistributionIndexVrh : Nat := 0
def kInputDistributionIndexVt : Nat := 1
def kInputDistributionIndexVsupply : Nat := 2
def kInputDistributionIndexMax : Nat := 3

def kOutputDistributionIndexCalibratedRelativeHumidity : Nat := 0
def kOutputDistributionIndexCalibratedTemperatureCelcius : Nat := 1
def kOutputDistributionIndexCalibratedTemperatureFahrenheit : Nat := 2
def kOutputDistributionIndexMax : Nat := 3

/-! ### Calibration constants (from the constants header) -/

def kSensorCalibrationConstant1 : ℚ := -12.5
def kSensorCalibrationConstant2 : ℚ := 125
def kSensorCalibrationConstant3 : ℚ := -66.875
def kSensorCalibrationConstant4 : ℚ := 218.75
def kSensorCalibrationConstant5 : ℚ := -88.375
def kSensorCalibrationConstant6 : ℚ := 393.75

/-! ### Default input distribution ranges (from the constants header) -/

def kDefaultInputDistributionVtUniformDistLow : ℚ := 2.3
def kDefaultInputDistributionVtUniformDistHigh : ℚ := 2.7
def kDefaultInputDistributionVrhUniformDistLow : ℚ := 2.3
def kDefaultInputDistributionVrhUniformDistHigh : ℚ := 2.7
def kDefaultInputDistributionVsupplyUniformDistLow : ℚ := 4.8
def kDefaultInputDistributionVsupplyUniformDistHigh : ℚ := 5.4

/-! ### The input sampler -/

/-- Modelled from the spec: `UxHwDoubleUniformDist(low, high)` is the
external uncertainty substrate's draw-uniform(low, high) primitive
(spec §6); its header `uxhw.h` is not part of this repository.  A draw
is parametrised by a position `u ∈ [0, 1]` within the range, giving
`low + u * (high - low)`, so that with `u` ranging over `[0, 1]` the
draw ranges exactly over `[low, high]`. -/
def UxHwDoubleUniformDist (low high u : ℚ) : ℚ :=
  low + u * (high - low)

/-- `setInputDistributionsViaUxHwCall` from `src/main.c`: writes one
uniform draw per input index into the `inputDistributions` array.  The
draw positions of the three independent calls are supplied by `u`. -/
def setInputDistributionsViaUxHwCall (u : Nat → ℚ) (inputDistributions : Nat → ℚ) :
    Nat → ℚ :=
  let a0 := Function.update inputDistributions kInputDistributionIndexVrh
              (UxHwDoubleUniformDist
                kDefaultInputDistributionVrhUniformDistLow
                kDefaultInputDistributionVrhUniformDistHigh (u 0))
  let a1 := Function.update a0 kInputDistributionIndexVt
              (UxHwDoubleUniformDist
                kDefaultInputDistributionVtUniformDistLow
                kDefaultInputDistributionVtUniformDistHigh (u 1))
  Function.update a1 kInputDistributionIndexVsupply
              (UxHwDoubleUniformDist
                kDefaultInputDistributionVsupplyUniformDistLow
                kDefaultInputDistributionVsupplyUniformDistHigh (u 2))

/-! ### The calibration function -/

/-- `calculateSensorOutput` from `src/main.c`: reads the three input
voltages, then for each requested output index writes the calibrated
value into the output array and into `calibratedValue`.  Returns the
final output array together with the returned `calibratedValue`
(initialised to `0.0`). -/
def calculateSensorOutput (outputSelect : Nat) (inputDistributions : Nat → ℚ)
    (outputDistributions : Nat → ℚ) : (Nat → ℚ) × ℚ :=
  let Vsupply := inputDistributions kInputDistributionIndexVsupply
  let Vt := inputDistributions kInputDistributionIndexVt
  let Vrh := inputDistributions kInputDistributionIndexVrh
  let calibratedValue : ℚ := 0
  let calculateAllOutputs := outputSelect = kOutputDistributionIndexMax
  let s1 :=
    if calculateAllOutputs ∨ outputSelect = kOutputDistributionIndexCalibratedRelativeHumidity then
      let Rh := kSensorCalibrationConstant1 + kSensorCalibrationConstant2 * (Vrh / Vsupply)
      (Function.update outputDistributions kOutputDistributionIndexCalibratedRelativeHumidity Rh, Rh)
    else
      (outputDistributions, calibratedValue)
  let s2 :=
    if calculateAllOutputs ∨ outputSelect = kOutputDistributionIndexCalibratedTemperatureCelcius then
      let Tcelcius := kSensorCalibrationConstant3 + kSensorCalibrationConstant4 * (Vt / Vsupply)
      (Function.update s1.1 kOutputDistributionIndexCalibratedTemperatureCelcius Tcelcius, Tcelcius)
    else
      s1
  let s3 :=
    if calculateAllOutputs ∨ outputSelect = kOutputDistributionIndexCalibratedTemperatureFahrenheit then
      let Tfahrenheit := kSensorCalibrationConstant5 + kSensorCalibrationConstant6 * (Vt / Vsupply)
      (Function.update s2.1 kOutputDistributionIndexCalibratedTemperatureFahrenheit Tfahrenheit, Tfahrenheit)
    else
      s2
  s3

end SHT4xI

/-- C1: with a nonzero supply voltage, the calibration function computes
relative humidity `-12.5 + 125 * (Vrh / Vsupply)`, Celsius temperature
`-66.875 + 218.75 * (Vt / Vsupply)` and Fahrenheit temperature
`-88.375 + 393.75 * (Vt / Vsupply)`. -/
theorem calculateSensorOutput_formulas
    (ins outs : Nat → ℚ) (hV : ins SHT4xI.kInputDistributionIndexVsupply ≠ 0) :
    (SHT4xI.calculateSensorOutput SHT4xI.kOutputDistributionIndexMax ins outs).1 0
        = -12.5 + 125 * (ins 0 / ins 2)
    ∧ (SHT4xI.calculateSensorOutput SHT4xI.kOutputDistributionIndexMax ins outs).1 1
        = -66.875 + 218.75 * (ins 1 / ins 2)
    ∧ (SHT4xI.calculateSensorOutput SHT4xI.kOutputDistributionIndexMax ins outs).1 2
        = -88.375 + 393.75 * (ins 1 / ins 2) := by
  refine ⟨?_, ?_, ?_⟩ <;>
    simp [SHT4xI.calculateSensorOutput, Function.update,
      SHT4xI.kOutputDistributionIndexMax,
      SHT4xI.kOutputDistributionIndexCalibratedRelativeHumidity,
      SHT4xI.kOutputDistributionIndexCalibratedTemperatureCelcius,
      SHT4xI.kOutputDistributionIndexCalibratedTemperatureFahrenheit,
      SHT4xI.kInputDistributionIndexVrh, SHT4xI.kInputDistributionIndexVt,
      SHT4xI.kInputDistributionIndexVsupply,
      SHT4xI.kSensorCalibrationConstant1, SHT4xI.kSensorCalibrationConstant2,
      SHT4xI.kSensorCalibrationConstant3, SHT4xI.kSensorCalibrationConstant4,
      SHT4xI.kSensorCalibrationConstant5, SHT4xI.kSensorCalibrationConstant6]

/-- C1 witness: at the input `{Vrh = 2.5, Vt = 2.5, Vsupply = 5.1}` the
three outputs agree with the datasheet formulas to within `1e-6`
(in fact exactly, in rational arithmetic). -/
theorem calculateSensorOutput_formulas_witness :
    |(SHT4xI.calculateSensorOutput SHT4xI.kOutputDistributionIndexMax
        (fun i => if i = 0 then 2.5 else if i = 1 then 2.5 else 5.1) (fun _ => 0)).1 0
      - (-12.5 + 125 * ((2.5 : ℚ) / 5.1))| ≤ 1e-6
    ∧ |(SHT4xI.calculateSensorOutput SHT4xI.kOutputDistributionIndexMax
        (fun i => if i = 0 then 2.5 else if i = 1 then 2.5 else 5.1) (fun _ => 0)).1 1
      - (-66.875 + 218.75 * ((2.5 : ℚ) / 5.1))| ≤ 1e-6
    ∧ |(SHT4xI.calculateSensorOutput SHT4xI.kOutputDistributionIndexMax
        (fun i => if i = 0 then 2.5 else if i = 1 then 2.5 else 5.1) (fun _ => 0)).1 2
      - (-88.375 + 393.75 * ((2.5 : ℚ) / 5.1))| ≤ 1e-6 := by
  obtain ⟨h0, h1, h2⟩ := calculateSensorOutput_formulas
    (fun i => if i = 0 then 2.5 else if i = 1 then 2.5 else 5.1) (fun _ => 0)
    (by norm_num [SHT4xI.kInputDistributionIndexVsupply])
  refine ⟨?_, ?_, ?_⟩
  · rw [h0]; norm_num
  · rw [h1]; norm_num
  · rw [h2]; norm_num

/-- C8: the scalar returned by the calibration function is the output
value written last among the requested set: for a single-output selector
it is that output's entry, and for the "all" selector all three outputs
are computed and stored and the return value is the last-written
(Fahrenheit) entry. -/
theorem calculateSensorOutput_returns_last_written (ins outs : Nat → ℚ) :
    (SHT4xI.calculateSensorOutput 0 ins outs).2 = (SHT4xI.calculateSensorOutput 0 ins outs).1 0
    ∧ (SHT4xI.calculateSensorOutput 1 ins outs).2 = (SHT4xI.calculateSensorOutput 1 ins outs).1 1
    ∧ (SHT4xI.calculateSensorOutput 2 ins outs).2 = (SHT4xI.calculateSensorOutput 2 ins outs).1 2
    ∧ (SHT4xI.calculateSensorOutput 3 ins outs).1 0
        = SHT4xI.kSensorCalibrationConstant1
          + SHT4xI.kSensorCalibrationConstant2 * (ins SHT4xI.kInputDistributionIndexVrh / ins SHT4xI.kInputDistributionIndexVsupply)
    ∧ (SHT4xI.calculateSensorOutput 3 ins outs).1 1
        = SHT4xI.kSensorCalibrationConstant3
          + SHT4xI.kSensorCalibrationConstant4 * (ins SHT4xI.kInputDistributionIndexVt / ins SHT4xI.kInputDistributionIndexVsupply)
    ∧ (SHT4xI.calculateSensorOutput 3 ins outs).1 2
        = SHT4xI.kSensorCalibrationConstant5
          + SHT4xI.kSensorCalibrationConstant6 * (ins SHT4xI.kInputDistributionIndexVt / ins SHT4xI.kInputDistributionIndexVsupply)
    ∧ (SHT4xI.calculateSensorOutput 3 ins outs).2 = (SHT4xI.calculateSensorOutput 3 ins outs).1 2 := by
  refine ⟨?_, ?_, ?_, ?_, ?_, ?_, ?_⟩ <;>
    simp [SHT4xI.calculateSensorOutput, Function.update,
      SHT4xI.kOutputDistributionIndexMax,
      SHT4xI.kOutputDistributionIndexCalibratedRelativeHumidity,
      SHT4xI.kOutputDistributionIndexCalibratedTemperatureCelcius,
      SHT4xI.kOutputDistributionIndexCalibratedTemperatureFahrenheit,
      SHT4xI.kInputDistributionIndexVrh, SHT4xI.kInputDistributionIndexVt,
      SHT4xI.kInputDistributionIndexVsupply]

/-- C10: for a single-output selector `s ∈ {0, 1, 2}`, the calibration
function writes only entry `s` of the output array; every other entry is
left unchanged by the call. -/
theorem calculateSensorOutput_frame (ins outs : Nat → ℚ) (s j : Nat)
    (hs : s < 3) (hj : j ≠ s) :
    (SHT4xI.calculateSensorOutput s ins outs).1 j = outs j := by
  interval_cases s <;>
    simp [SHT4xI.calculateSensorOutput, Function.update,
      SHT4xI.kOutputDistributionIndexMax,
      SHT4xI.kOutputDistributionIndexCalibratedRelativeHumidity,
      SHT4xI.kOutputDistributionIndexCalibratedTemperatureCelcius,
      SHT4xI.kOutputDistributionIndexCalibratedTemperatureFahrenheit, hj]

/-- C10 witness: with selector 1 (Celsius), entry 0 of a concrete output
array is untouched. -/
theorem calculateSensorOutput_frame_witness :
    (SHT4xI.calculateSensorOutput 1 (fun _ => 2) (fun _ => 7)).1 0 = 7 :=
  calculateSensorOutput_frame (fun _ => 2) (fun _ => 7) 1 0 (by norm_num) (by norm_num)

/-- C4: every draw of the input sampler lies within its fixed uniform
range (Vrh and Vt in `[2.3, 2.7]`, Vsupply in `[4.8, 5.4]`), so in
particular the sampled supply voltage is never zero and the divisions
`Vrh / Vsupply` and `Vt / Vsupply` in the calibration function never
divide by zero on sampled inputs. -/
theorem setInputDistributionsViaUxHwCall_bounds (u ins : Nat → ℚ)
    (h0 : 0 ≤ u 0) (h0' : u 0 ≤ 1) (h1 : 0 ≤ u 1) (h1' : u 1 ≤ 1)
    (h2 : 0 ≤ u 2) (h2' : u 2 ≤ 1) :
    (2.3 ≤ SHT4xI.setInputDistributionsViaUxHwCall u ins SHT4xI.kInputDistributionIndexVrh
      ∧ SHT4xI.setInputDistributionsViaUxHwCall u ins SHT4xI.kInputDistributionIndexVrh ≤ 2.7)
    ∧ (2.3 ≤ SHT4xI.setInputDistributionsViaUxHwCall u ins SHT4xI.kInputDistributionIndexVt
      ∧ SHT4xI.setInputDistributionsViaUxHwCall u ins SHT4xI.kInputDistributionIndexVt ≤ 2.7)
    ∧ (4.8 ≤ SHT4xI.setInputDistributionsViaUxHwCall u ins SHT4xI.kInputDistributionIndexVsupply
      ∧ SHT4xI.setInputDistributionsViaUxHwCall u ins SHT4xI.kInputDistributionIndexVsupply ≤ 5.4)
    ∧ SHT4xI.setInputDistributionsViaUxHwCall u ins SHT4xI.kInputDistributionIndexVsupply ≠ 0 := by
  simp only [SHT4xI.setInputDistributionsViaUxHwCall, SHT4xI.UxHwDoubleUniformDist,
    SHT4xI.kInputDistributionIndexVrh, SHT4xI.kInputDistributionIndexVt,
    SHT4xI.kInputDistributionIndexVsupply,
    SHT4xI.kDefaultInputDistributionVrhUniformDistLow,
    SHT4xI.kDefaultInputDistributionVrhUniformDistHigh,
    SHT4xI.kDefaultInputDistributionVtUniformDistLow,
    SHT4xI.kDefaultInputDistributionVtUniformDistHigh,
    SHT4xI.kDefaultInputDistributionVsupplyUniformDistLow,
    SHT4xI.kDefaultInputDistributionVsupplyUniformDistHigh,
    Function.update]
  norm_num
  refine ⟨⟨by nlinarith, by nlinarith⟩, ⟨by nlinarith, by nlinarith⟩,
    ⟨by nlinarith, by nlinarith⟩, by nlinarith⟩

/-- C4 witness: with all three draw positions at the midpoint `1/2`, the
sampled voltages are inside their ranges and the supply voltage is
nonzero. -/
theorem setInputDistributionsViaUxHwCall_bounds_witness :
    (2.3 ≤ SHT4xI.setInputDistributionsViaUxHwCall (fun _ => 1/2) (fun _ => 0) SHT4xI.kInputDistributionIndexVrh
      ∧ SHT4xI.setInputDistributionsViaUxHwCall (fun _ => 1/2) (fun _ => 0) SHT4xI.kInputDistributionIndexVrh ≤ 2.7)
    ∧ (2.3 ≤ SHT4xI.setInputDistributionsViaUxHwCall (fun _ => 1/2) (fun _ => 0) SHT4xI.kInputDistributionIndexVt
      ∧ SHT4xI.setInputDistributionsViaUxHwCall (fun _ => 1/2) (fun _ => 0) SHT4xI.kInputDistributionIndexVt ≤ 2.7)
    ∧ (4.8 ≤ SHT4xI.setInputDistributionsViaUxHwCall (fun _ => 1/2) (fun _ => 0) SHT4xI.kInputDistributionIndexVsupply
      ∧ SHT4xI.setInputDistributionsViaUxHwCall (fun _ => 1/2) (fun _ => 0) SHT4xI.kInputDistributionIndexVsupply ≤ 5.4)
    ∧ SHT4xI.setInputDistributionsViaUxHwCall (fun _ => 1/2) (fun _ => 0) SHT4xI.kInputDistributionIndexVsupply ≠ 0 :=
  setInputDistributionsViaUxHwCall_bounds (fun _ => 1/2) (fun _ => 0)
    (by norm_num) (by norm_num) (by norm_num) (by norm_num) (by norm_num) (by norm_num)

namespace SHT4xI

/-! ### The statistics aggregator (common utilities, not under `src/`) -/

/-- The `MeanAndVariance` pair returned by the aggregator. -/
structure MeanAndVariance where
  mean : ℚ
  variance : ℚ
deriving DecidableEq

/-- Modelled from the spec: the implementation of
`calculateMeanAndVarianceOfDoubleSamples` lives in the common utilities,
which are not under `src/` (only its call site in `main` is).  Per the
spec it returns the arithmetic mean and the population variance
(squared deviations from the mean, divided by `N`, computed in a
cancellation-free two-pass fashion), and rejects an empty buffer as an
error before any division by `N`. -/
def calculateMeanAndVarianceOfDoubleSamples (samples : List ℚ) :
    Option MeanAndVariance :=
  if samples.length = 0 then
    none
  else
    let n : ℚ := samples.length
    let mean : ℚ := samples.sum / n
    let variance : ℚ := (samples.map fun x => (x - mean) ^ 2).sum / n
    some ⟨mean, variance⟩

/-! ### Command-line argument processing -/

/-- The fields of `CommonCommandLineArguments` that
`getCommandLineArguments` in `src/main.c` inspects after `parseArgs`
has filled them in. -/
structure CommonCommandLineArguments where
  isHelpEnabled : Bool
  isInputFromFileEnabled : Bool
  isWriteToFileEnabled : Bool
  isMonteCarloMode : Bool
  isBenchmarkingMode : Bool
  isOutputSelected : Bool
  outputSelect : Nat
  numberOfMonteCarloIterations : Nat
deriving DecidableEq

/-- Outcome of `getCommandLineArguments`: an error return, the
`exit(EXIT_SUCCESS)` taken when help is requested, or a success return
carrying the processed argument struct. -/
inductive GetCommandLineArgumentsResult where
  | error : GetCommandLineArgumentsResult
  | helpExitSuccess : GetCommandLineArgumentsResult
  | success : CommonCommandLineArguments → GetCommandLineArgumentsResult
deriving DecidableEq

/-- `getCommandLineArguments` from `src/main.c`, from the point where
`parseArgs` has returned (`parseArgsSucceeded` tells whether it
succeeded, `parsed` is the argument struct it filled in).  Note that in
the source the `outputSelect > kOutputDistributionIndexMax` branch only
prints a diagnostic and does not return: control falls past the
`else if` chain to the final `return kCommonConstantReturnTypeSuccess`,
which this embedding renders faithfully as `success`. -/
def getCommandLineArguments (parseArgsSucceeded : Bool)
    (parsed : CommonCommandLineArguments) : GetCommandLineArgumentsResult :=
  if ¬parseArgsSucceeded then
    .error
  else if parsed.isHelpEnabled then
    .helpExitSuccess
  else if parsed.isInputFromFileEnabled then
    .error
  else if parsed.isWriteToFileEnabled ∧ parsed.isMonteCarloMode then
    .error
  else
    let arguments :=
      if ¬parsed.isOutputSelected then
        ⟨parsed.isHelpEnabled, parsed.isInputFromFileEnabled,
         parsed.isWriteToFileEnabled, parsed.isMonteCarloMode,
         parsed.isBenchmarkingMode, parsed.isOutputSelected,
         kOutputDistributionIndexMax, parsed.numberOfMonteCarloIterations⟩
      else parsed
    if arguments.outputSelect > kOutputDistributionIndexMax then
      .success arguments
    else if arguments.outputSelect = kOutputDistributionIndexMax then
      if arguments.isBenchmarkingMode ∨ arguments.isMonteCarloMode then
        .error
      else
        .success arguments
    else
      .success arguments

/-! ### The Monte Carlo driver loop of `main` -/

/-- The Monte Carlo loop of `main` in `src/main.c`, iterating from
index `i` for `n` more iterations: each iteration refills the input
array via `setInputDistributionsViaUxHwCall` (overwriting all three
entries, so the incoming input-array state is immaterial and `ins0`
stands for the array declared in `main`), applies
`calculateSensorOutput` (whose output array `outs` persists across
iterations as in `main`), and appends the returned
`calibratedSensorOutput` to `monteCarloOutputSamples`.  `draw i` gives
iteration `i`'s three uniform draw positions. -/
def monteCarloLoopFrom (outputSelect : Nat) (draw : Nat → Nat → ℚ)
    (ins0 : Nat → ℚ) : Nat → Nat → (Nat → ℚ) → List ℚ × (Nat → ℚ)
  | _, 0, outs => ([], outs)
  | i, n + 1, outs =>
      let inputDistributions := setInputDistributionsViaUxHwCall (draw i) ins0
      let r := calculateSensorOutput outputSelect inputDistributions outs
      let rest := monteCarloLoopFrom outputSelect draw ins0 (i + 1) n r.1
      (r.2 :: rest.1, rest.2)

/-- The `monteCarloOutputSamples` buffer that `main`'s loop has built
when it terminates, for a configured iteration count
`numberOfMonteCarloIterations`. -/
def monteCarloOutputSamples (outputSelect : Nat) (draw : Nat → Nat → ℚ)
    (ins0 outs0 : Nat → ℚ) (numberOfMonteCarloIterations : Nat) : List ℚ :=
  (monteCarloLoopFrom outputSelect draw ins0 0 numberOfMonteCarloIterations outs0).1

end SHT4xI

/-- C2: on a non-empty buffer the aggregator returns the arithmetic
mean and the population variance (squared deviations from the mean,
averaged over `N`, not `N - 1`); on a one-element buffer the variance
is exactly `0` regardless of the sample's value. -/
theorem calculateMeanAndVariance_population (samples : List ℚ) (h : samples ≠ []) :
    SHT4xI.calculateMeanAndVarianceOfDoubleSamples samples
      = some ⟨samples.sum / (samples.length : ℚ),
              (samples.map fun x => (x - samples.sum / (samples.length : ℚ)) ^ 2).sum
                / (samples.length : ℚ)⟩
    ∧ ∀ x : ℚ, SHT4xI.calculateMeanAndVarianceOfDoubleSamples [x] = some ⟨x, 0⟩ := by
  constructor
  · simp [SHT4xI.calculateMeanAndVarianceOfDoubleSamples, h]
  · intro x
    simp [SHT4xI.calculateMeanAndVarianceOfDoubleSamples]

/-- C2 witness: the buffer `[3, 5]` has mean `4` and population
variance `1`, and the one-element buffer `[7]` has mean `7` and
variance `0`. -/
theorem calculateMeanAndVariance_population_witness :
    SHT4xI.calculateMeanAndVarianceOfDoubleSamples [3, 5] = some ⟨4, 1⟩
    ∧ SHT4xI.calculateMeanAndVarianceOfDoubleSamples [7] = some ⟨7, 0⟩ := by
  have h := calculateMeanAndVariance_population [3, 5] (by simp)
  refine ⟨?_, h.2 7⟩
  rw [h.1]
  norm_num

/-- C7: aggregation over an empty buffer is rejected as an error
(`none`) before any division by `N`; it does not return `{0, 0}` or any
other value. -/
theorem calculateMeanAndVariance_empty_rejected :
    SHT4xI.calculateMeanAndVarianceOfDoubleSamples [] = none := rfl

/-- C5: argument processing rejects (error, no computation) the "all
outputs" selector — whether defaulted or given explicitly — combined
with benchmarking mode or Monte Carlo mode, and rejects write-to-file
combined with Monte Carlo mode. -/
theorem getCommandLineArguments_mutual_exclusion
    (parsed : SHT4xI.CommonCommandLineArguments)
    (hHelp : parsed.isHelpEnabled = false) :
    (parsed.isWriteToFileEnabled = true → parsed.isMonteCarloMode = true →
      SHT4xI.getCommandLineArguments true parsed = SHT4xI.GetCommandLineArgumentsResult.error)
    ∧ ((parsed.isOutputSelected = false ∨ parsed.outputSelect = SHT4xI.kOutputDistributionIndexMax) →
      (parsed.isBenchmarkingMode = true ∨ parsed.isMonteCarloMode = true) →
      SHT4xI.getCommandLineArguments true parsed = SHT4xI.GetCommandLineArgumentsResult.error) := by
  obtain ⟨help, ifile, wfile, mc, bench, osel, oselv, niter⟩ := parsed
  simp only at hHelp
  subst hHelp
  refine ⟨fun hw hm => ?_, fun hsel hmode => ?_⟩
  · subst hw
    subst hm
    cases ifile <;> simp [SHT4xI.getCommandLineArguments]
  · rcases hsel with hsel | hsel
    · subst hsel
      cases ifile <;> cases wfile <;> cases mc <;> cases bench <;>
        simp_all [SHT4xI.getCommandLineArguments, SHT4xI.kOutputDistributionIndexMax]
    · simp only [SHT4xI.kOutputDistributionIndexMax] at hsel
      subst hsel
      cases osel <;> cases ifile <;> cases wfile <;> cases mc <;> cases bench <;>
        simp_all [SHT4xI.getCommandLineArguments, SHT4xI.kOutputDistributionIndexMax]

/-- C5 witness: write-to-file together with Monte Carlo mode is
rejected, and the defaulted "all" selector together with benchmarking
mode is rejected. -/
theorem getCommandLineArguments_mutual_exclusion_witness :
    SHT4xI.getCommandLineArguments true ⟨false, false, true, true, false, true, 1, 1⟩
      = SHT4xI.GetCommandLineArgumentsResult.error
    ∧ SHT4xI.getCommandLineArguments true ⟨false, false, false, false, true, false, 0, 1⟩
      = SHT4xI.GetCommandLineArgumentsResult.error :=
  ⟨(getCommandLineArguments_mutual_exclusion ⟨false, false, true, true, false, true, 1, 1⟩ rfl).1
      rfl rfl,
   (getCommandLineArguments_mutual_exclusion ⟨false, false, false, false, true, false, 0, 1⟩ rfl).2
      (Or.inl rfl) (Or.inl rfl)⟩

/-- C6 (code bug): a configuration whose output-select value exceeds
`kOutputDistributionIndexMax` is *not* rejected: `getCommandLineArguments`
prints a diagnostic but, lacking an error return in that branch, falls
through and returns success, so `main` proceeds to compute. -/
theorem getCommandLineArguments_overflow_returns_success :
    SHT4xI.getCommandLineArguments true ⟨false, false, false, false, false, true, 4, 1⟩
      = SHT4xI.GetCommandLineArgumentsResult.success ⟨false, false, false, false, false, true, 4, 1⟩ := by
  rfl

/-- The returned `calibratedValue` of `calculateSensorOutput` does not
depend on the previous contents of the output array. -/
theorem calculateSensorOutput_snd_independent (s : Nat) (ins outs outs' : Nat → ℚ) :
    (SHT4xI.calculateSensorOutput s ins outs).2
      = (SHT4xI.calculateSensorOutput s ins outs').2 := by
  simp only [SHT4xI.calculateSensorOutput]
  split_ifs <;> rfl

/-- Unrolling of the Monte Carlo loop: starting at iteration `i` with
any current output-array state, the samples collected over `n` more
iterations are those of iterations `i, i+1, ..., i+n-1`. -/
theorem monteCarloLoopFrom_fst (s : Nat) (draw : Nat → Nat → ℚ) (ins0 outs0 : Nat → ℚ) :
    ∀ (n i : Nat) (outs : Nat → ℚ),
      (SHT4xI.monteCarloLoopFrom s draw ins0 i n outs).1
        = (List.range' i n).map (fun j =>
            (SHT4xI.calculateSensorOutput s
              (SHT4xI.setInputDistributionsViaUxHwCall (draw j) ins0) outs0).2) := by
  intro n
  induction n with
  | zero =>
      intro i outs
      simp [SHT4xI.monteCarloLoopFrom]
  | succ n ih =>
      intro i outs
      rw [List.range'_succ, List.map_cons]
      simp only [SHT4xI.monteCarloLoopFrom]
      rw [ih]
      rw [calculateSensorOutput_snd_independent s
        (SHT4xI.setInputDistributionsViaUxHwCall (draw i) ins0) outs outs0]

/-- C9: for every iteration count `N ≥ 0` the Monte Carlo driver
terminates with a sample buffer of length exactly `N`; `N = 0` yields
the empty buffer (not an error); and entry `i` of the buffer is exactly
the calibrated value of the full application of the calibration
function to iteration `i`'s freshly drawn inputs, in iteration order. -/
theorem monteCarloOutputSamples_length_and_entries (s : Nat) (draw : Nat → Nat → ℚ)
    (ins0 outs0 : Nat → ℚ) (N : Nat) :
    (SHT4xI.monteCarloOutputSamples s draw ins0 outs0 N).length = N
    ∧ SHT4xI.monteCarloOutputSamples s draw ins0 outs0 0 = []
    ∧ SHT4xI.monteCarloOutputSamples s draw ins0 outs0 N
        = (List.range N).map (fun i =>
            (SHT4xI.calculateSensorOutput s
              (SHT4xI.setInputDistributionsViaUxHwCall (draw i) ins0) outs0).2) := by
  have hN : SHT4xI.monteCarloOutputSamples s draw ins0 outs0 N
      = (List.range N).map (fun i =>
          (SHT4xI.calculateSensorOutput s
            (SHT4xI.setInputDistributionsViaUxHwCall (draw i) ins0) outs0).2) := by
    rw [List.range_eq_range']
    exact monteCarloLoopFrom_fst s draw ins0 outs0 N 0 outs0
  refine ⟨?_, rfl, hN⟩
  rw [hN, List.length_map, List.length_range]
